import Mathlib

/-!
Shallow embedding of the discerns-sdk messaging core.

Embedded source:
* the in-process event registry, class TwoWayProtocol in
  src/js/chatbot-two-way-listener.ts (tell channels with a replay buffer,
  unique ask handlers);
* the website-side boundary transport adapter built by
  connectToDiscernsChatbot (pending ask map keyed by correlation id,
  inbound message dispatch, tool registration, dispose).

Modelling conventions: JavaScript Map objects become association lists
(mapGet / mapSet / mapDelete mirror Map.get / Map.set / Map.delete; a Map
never holds a duplicate key, and mapDelete removes every binding of the
key so that deletion leaves the key absent on every list); a thrown
exception becomes Except.error carrying the message; a tell listener
callback is modelled by the one aspect of its behaviour the registry can
observe, namely whether it throws on a given payload; promise settlement
is made observable through an explicit settlement log keyed by
correlation id.
-/

/-- Map.get on an association list: the value of the first binding of the
key, if any. -/
def mapGet {α : Type} : List (String × α) → String → Option α
  | [], _ => none
  | (k, v) :: rest, key => if k = key then some v else mapGet rest key

/-- Map.set on an association list: replace the binding in place if the
key is present, otherwise append a new binding. -/
def mapSet {α : Type} : List (String × α) → String → α → List (String × α)
  | [], key, v => [(key, v)]
  | (k, w) :: rest, key, v =>
    if k = key then (k, v) :: rest else (k, w) :: mapSet rest key v

/-- Map.delete on an association list: remove every binding of the key
(a real Map holds at most one, so this agrees with Map.delete on all
states that represent a Map). -/
def mapDelete {α : Type} : List (String × α) → String → List (String × α)
  | [], _ => []
  | (k, v) :: rest, key =>
    if k = key then mapDelete rest key else (k, v) :: mapDelete rest key

/-- A pooled tell listener: its numeric identity and its callback,
modelled by whether the callback throws on a given payload. -/
structure PooledListener (V : Type) where
  id : Nat
  fails : V → Bool

/-- The per-event state of a tell channel in TwoWayProtocol.listeners:
the replay buffer `queue` and the active subscribers. -/
structure TellChannel (V : Type) where
  queue : List V
  currentListeners : List (PooledListener V)

/-- A pooled ask handler: identity, the handler function (which may throw
or reject, modelled by Except), and the preventOverwrite flag. -/
structure PooledHandler (V : Type) where
  id : Nat
  run : V → Except String V
  preventOverwrite : Bool

/-- The state of a TwoWayProtocol instance: the tell listener map, the
ask handler map, and the shared id counter. -/
structure TwoWayProtocol (V : Type) where
  listeners : List (String × TellChannel V)
  handlers : List (String × PooledHandler V)
  id : Nat

/-- TwoWayProtocol.declareTellEvent: idempotently create the channel;
returns true when it already existed. -/
def TwoWayProtocol.declareTellEvent {V : Type} (p : TwoWayProtocol V) (eventName : String) :
    TwoWayProtocol V × Bool :=
  match mapGet p.listeners eventName with
  | some _ => (p, true)
  | none =>
    ({ p with listeners := mapSet p.listeners eventName { queue := [], currentListeners := [] } },
     false)

/-- The buffered-payload drain loop `pool.queue.forEach(value => listener(value))`
inside TwoWayProtocol.on: returns the payloads the new listener was invoked
with and whether the loop completed without the listener throwing (a throw
aborts the forEach and propagates). -/
def drainRun {V : Type} (fails : V → Bool) : List V → List V × Bool
  | [] => ([], true)
  | v :: rest =>
    if fails v then ([v], false)
    else
      let r := drainRun fails rest
      (v :: r.1, r.2)

/-- TwoWayProtocol.on: register a listener for a tell event. Throws when
the event was never declared. The new listener is appended first; then, if
the buffer is non-empty, every buffered payload is delivered to the new
listener in order and the buffer is cleared (if the listener throws
mid-drain the exception propagates, the listener stays registered and the
buffer is left as it was, since `pool.queue = []` is only reached after the
forEach). Returns the new state, the payloads delivered to the new
listener, and the listener id (or the propagated error). -/
def TwoWayProtocol.on {V : Type} (p : TwoWayProtocol V) (eventName : String) (fails : V → Bool) :
    TwoWayProtocol V × List V × Except String Nat :=
  match mapGet p.listeners eventName with
  | none => (p, [], Except.error ("Event " ++ eventName ++ " does not exist"))
  | some pool =>
    let i := p.id
    let added := pool.currentListeners ++ [{ id := i, fails := fails }]
    if pool.queue.length > 0 then
      let drained := drainRun fails pool.queue
      if drained.2 then
        ({ p with id := i + 1,
                  listeners := mapSet p.listeners eventName
                    { queue := [], currentListeners := added } },
         drained.1, Except.ok i)
      else
        ({ p with id := i + 1,
                  listeners := mapSet p.listeners eventName
                    { queue := pool.queue, currentListeners := added } },
         drained.1, Except.error "listener threw during buffered delivery")
    else
      ({ p with id := i + 1,
                listeners := mapSet p.listeners eventName
                  { queue := pool.queue, currentListeners := added } },
       [], Except.ok i)

/-- TwoWayProtocol.off: unregister a listener by id. Returns false when
the event is unknown; otherwise filters the listener pool by id and
returns whether the pool shrank. -/
def TwoWayProtocol.off {V : Type} (p : TwoWayProtocol V) (eventName : String) (i : Nat) :
    TwoWayProtocol V × Bool :=
  match mapGet p.listeners eventName with
  | none => (p, false)
  | some pool =>
    let newPool := pool.currentListeners.filter (fun l => decide (l.id ≠ i))
    ({ p with listeners := mapSet p.listeners eventName
                 ({ pool with currentListeners := newPool }) },
     decide (pool.currentListeners.length ≠ newPool.length))

/-- TwoWayProtocol.registerUniqueAskHandler: throws when an existing
handler set preventOverwrite; otherwise installs the new handler (id from
the shared counter, preventOverwrite from options with default false) and
returns the id together with whether an existing handler was replaced.
`options` stands for the optional `options?.preventOverwrite` argument. -/
def TwoWayProtocol.registerUniqueAskHandler {V : Type} (p : TwoWayProtocol V)
    (eventName : String) (run : V → Except String V) (options : Option Bool) :
    TwoWayProtocol V × Except String (Nat × Bool) :=
  match mapGet p.handlers eventName with
  | some existing =>
    if existing.preventOverwrite then
      (p, Except.error
        ("Handler for " ++ eventName ++ " already exists and it set itself as not overwritable"))
    else
      ({ p with id := p.id + 1,
                handlers := mapSet p.handlers eventName
                  { id := p.id, run := run, preventOverwrite := options.getD false } },
       Except.ok (p.id, true))
  | none =>
      ({ p with id := p.id + 1,
                handlers := mapSet p.handlers eventName
                  { id := p.id, run := run, preventOverwrite := options.getD false } },
       Except.ok (p.id, false))

/-- TwoWayProtocol.ask: throws when no handler is registered, otherwise
invokes the handler; a synchronous throw, an asynchronous rejection and a
resolved value all collapse to the Except result the caller awaits. -/
def TwoWayProtocol.ask {V : Type} (p : TwoWayProtocol V) (eventName : String) (payload : V) :
    Except String V :=
  match mapGet p.handlers eventName with
  | none => Except.error ("No handler for " ++ eventName)
  | some h => h.run payload

/-- Outcome of TwoWayProtocol.tell. -/
inductive TellOutcome where
  | unknownEvent
  | buffered
  | delivered
  | listenerThrew
  deriving DecidableEq

/-- The delivery loop `currentListeners.forEach(({listener}) => listener(payload))`
inside TwoWayProtocol.tell: returns the ids of the listeners that were
invoked and whether the loop completed (a listener throwing aborts the
forEach, so later listeners are not invoked). -/
def tellRun {V : Type} (payload : V) : List (PooledListener V) → List Nat × Bool
  | [] => ([], true)
  | l :: rest =>
    if l.fails payload then ([l.id], false)
    else
      let r := tellRun payload rest
      (l.id :: r.1, r.2)

/-- TwoWayProtocol.tell: throws when the event was never declared; with
zero current listeners appends the payload to the replay buffer; otherwise
invokes the current listeners in order with the payload (no per-listener
catch). Returns the new state, the ids of the listeners invoked, and the
outcome. -/
def TwoWayProtocol.tell {V : Type} (p : TwoWayProtocol V) (eventName : String) (payload : V) :
    TwoWayProtocol V × List Nat × TellOutcome :=
  match mapGet p.listeners eventName with
  | none => (p, [], TellOutcome.unknownEvent)
  | some pool =>
    if pool.currentListeners.length = 0 then
      ({ p with listeners := mapSet p.listeners eventName
                  ({ pool with queue := pool.queue ++ [payload] }) },
       [], TellOutcome.buffered)
    else
      let r := tellRun payload pool.currentListeners
      (p, r.1, if r.2 then TellOutcome.delivered else TellOutcome.listenerThrew)

/-- Iterated TwoWayProtocol.tell over a list of payloads. -/
def tellAll {V : Type} (p : TwoWayProtocol V) (eventName : String) : List V → TwoWayProtocol V
  | [] => p
  | v :: rest => tellAll (TwoWayProtocol.tell p eventName v).1 eventName rest

/-- Specification-side characterization of the tell delivery loop: the
ids invoked are exactly the subscribers in subscription order up to and
including the first one whose callback throws. -/
def invokedUntilFailure {V : Type} (payload : V) : List (PooledListener V) → List Nat
  | [] => []
  | l :: rest =>
    if l.fails payload then [l.id] else l.id :: invokedUntilFailure payload rest

/-- A wire or handler value: the payload shapes that actually travel in
this protocol (strings, numbers, booleans, undefined, the response
object with an ok flag and a value, the tool-registration response with
a success flag, the tool-call request object, and the tool-registration
request object carrying name and description). -/
inductive Val where
  | str : String → Val
  | num : Nat → Val
  | vbool : Bool → Val
  | vunit : Val
  | okv : Bool → Val → Val
  | succv : Bool → Val
  | toolCall : String → Val → Val
  | toolSpec : String → String → Val
  deriving DecidableEq

/-- JavaScript String(value) on the values of this model ("[object Object]"
for the object shapes, "undefined" for undefined). -/
def valToString : Val → String
  | Val.str s => s
  | Val.num n => toString n
  | Val.vbool b => if b then "true" else "false"
  | Val.vunit => "undefined"
  | Val.okv _ _ => "[object Object]"
  | Val.succv _ => "[object Object]"
  | Val.toolCall _ _ => "[object Object]"
  | Val.toolSpec _ _ => "[object Object]"

/-- Property access `value.ok` (undefined, hence falsy, on anything that
is not the ok/value response object). -/
def valOkField : Val → Bool
  | Val.okv b _ => b
  | _ => false

/-- Property access `value.value` (undefined on anything that is not the
ok/value response object). -/
def valValueField : Val → Val
  | Val.okv _ v => v
  | _ => Val.vunit

/-- Property access `result.success` (undefined, hence falsy, on anything
that is not the success response object). -/
def valSuccessField : Val → Bool
  | Val.succv b => b
  | _ => false

/-- Property access `payload.name` in the destructured tool-call payload
("undefined" when the payload is not a tool-call object). -/
def payloadToolName : Val → String
  | Val.toolCall n _ => n
  | _ => "undefined"

/-- Property access `payload.args` in the destructured tool-call payload
(undefined when the payload is not a tool-call object). -/
def payloadToolArgs : Val → Val
  | Val.toolCall _ a => a
  | _ => Val.vunit

/-- The message kinds of the wire envelope: 'ask', 'tell', 'ask-response'. -/
inductive MsgType where
  | ask
  | tell
  | askResponse
  deriving DecidableEq

/-- The ProtocolMessage wire envelope: type, event, payload and the
optional correlation id messageId. (sendMessage additionally attaches the
constant protocol marker before posting.) -/
structure Envelope where
  type : MsgType
  event : String
  payload : Val
  messageId : Option String
  deriving DecidableEq

/-- The PROTOCOL_PREFIX marker distinguishing this protocol's traffic. -/
def protocolMarker : String := "discerns-protocol"

/-- An inbound postMessage event as handleMessage sees it: whether
event.source is the chatbot iframe's content window, whether event.data is
a non-null object, the data.prefix field (empty when absent), and the
envelope fields of the data. -/
structure RawMessage where
  fromIframe : Bool
  isObject : Bool
  marker : String
  msg : Envelope
  deriving DecidableEq

/-- The filter chain at the top of handleMessage: the source must be the
iframe's content window, the data must be a non-null object, and its
prefix must be the protocol marker; anything else is ignored. -/
def acceptsMessage (r : RawMessage) : Bool :=
  r.fromIframe && r.isObject && decide (r.marker = protocolMarker)

/-- An observable settlement of a pending ask promise: resolve with a
value, or reject with an error message. -/
inductive Settlement where
  | resolved : Val → Settlement
  | rejected : String → Settlement
  deriving DecidableEq

/-- A RegisteredTool: name, description, the zod schema (modelled by its
parse function, which returns the validated arguments or throws) and the
execute callback (which may throw or reject). -/
structure RegisteredTool where
  name : String
  description : String
  parse : Val → Except String Val
  execute : Val → Except String Val

/-- The handler registered for 'website:tool-call': looks the tool up by
name in the registered tool map, returns a structured not-found failure
for an unknown name, otherwise validates the arguments with the schema and
runs the tool, wrapping a thrown validation or execution error as a
structured failure and a successful result as ok/value. It never throws. -/
def toolCallHandler (tools : List (String × RegisteredTool)) (payload : Val) :
    Except String Val :=
  let name := payloadToolName payload
  let args := payloadToolArgs payload
  match mapGet tools name with
  | none => Except.ok (Val.okv false (Val.str ("Tool \"" ++ name ++ "\" not found")))
  | some tool =>
    match tool.parse args with
    | Except.error err => Except.ok (Val.okv false (Val.str err))
    | Except.ok validated =>
      match tool.execute validated with
      | Except.error err => Except.ok (Val.okv false (Val.str err))
      | Except.ok result => Except.ok (Val.okv true result)

/-- The state owned by one connectToDiscernsChatbot call: the incoming
TwoWayProtocol registry, the pending ask correlation ids (the keys of the
pendingAskResponses map; the stored resolve/reject callbacks are made
observable through settleLog), the registered tool map, the message id
counter, whether the window message listener is still attached, whether
the iframe content window is available for posting, the envelopes posted
to the iframe, and the log of promise settlements keyed by correlation
id. -/
structure Adapter where
  incoming : TwoWayProtocol Val
  pending : List String
  tools : List (String × RegisteredTool)
  counter : Nat
  listening : Bool
  windowLive : Bool
  outbox : List Envelope
  settleLog : List (String × Settlement)

/-- Map.has on the pending correlation id set. -/
def hasKey : List String → String → Bool
  | [], _ => false
  | x :: rest, key => if x = key then true else hasKey rest key

/-- Map.delete on the pending correlation id set (removes every
occurrence; a Map holds at most one). -/
def removeKey : List String → String → List String
  | [], _ => []
  | x :: rest, key => if x = key then removeKey rest key else x :: removeKey rest key

/-- The settlements recorded for one correlation id, in order. -/
def settlementsFor : List (String × Settlement) → String → List Settlement
  | [], _ => []
  | (k, s) :: rest, key =>
    if k = key then s :: settlementsFor rest key else settlementsFor rest key

/-- sendMessage: post an envelope to the iframe's content window if it is
available; otherwise log an error and drop the message. -/
def sendMessage (a : Adapter) (message : Envelope) : Adapter :=
  if a.windowLive then { a with outbox := a.outbox ++ [message] } else a

/-- The tell branch of handleMessage: forward into the local registry;
a registry error (unknown event or a throwing listener) is caught and
logged, never escalated. -/
def dispatchTell (a : Adapter) (e : Envelope) : Adapter :=
  { a with incoming := (TwoWayProtocol.tell a.incoming e.event e.payload).1 }

/-- The ask branch of handleMessage: await the local registry's ask and
always post an ask-response envelope back, ok/value on success and
ok/stringified-error on any failure (no handler, synchronous throw or
rejection), echoing the original messageId. -/
def dispatchAsk (a : Adapter) (e : Envelope) : Adapter :=
  match TwoWayProtocol.ask a.incoming e.event e.payload with
  | Except.ok v =>
    sendMessage a { type := MsgType.askResponse, event := e.event,
                    payload := Val.okv true v, messageId := e.messageId }
  | Except.error err =>
    sendMessage a { type := MsgType.askResponse, event := e.event,
                    payload := Val.okv false (Val.str err), messageId := e.messageId }

/-- The settlement a pending ask receives from a response payload:
resolve with payload.value when payload.ok is truthy, otherwise reject
with an error whose message is String(payload.value). -/
def settleOf (payload : Val) : Settlement :=
  if valOkField payload then Settlement.resolved (valValueField payload)
  else Settlement.rejected (valToString (valValueField payload))

/-- The ask-response branch of handleMessage: look the correlation id up
among the pending asks; when present, remove the entry and settle the
stored promise from the response payload; otherwise do nothing (late or
spurious responses are dropped silently). -/
def dispatchAskResponse (a : Adapter) (e : Envelope) : Adapter :=
  match e.messageId with
  | none => a
  | some mid =>
    if hasKey a.pending mid then
      { a with pending := removeKey a.pending mid,
               settleLog := a.settleLog ++ [(mid, settleOf e.payload)] }
    else a

/-- handleMessage: drop anything failing the source or format/marker
filters, then dispatch on the envelope's type. -/
def handleMessage (a : Adapter) (r : RawMessage) : Adapter :=
  if acceptsMessage r then
    match r.msg.type with
    | MsgType.tell => dispatchTell a r.msg
    | MsgType.ask => dispatchAsk a r.msg
    | MsgType.askResponse => dispatchAskResponse a r.msg
  else a

/-- A window message reaches handleMessage only while the listener
installed by connectToDiscernsChatbot is still attached. -/
def deliverWindowMessage (a : Adapter) (r : RawMessage) : Adapter :=
  if a.listening then handleMessage a r else a

/-- The timeout callback scheduled by askChatbot for correlation id `mid`
of an ask for `event`: if the entry is still pending, remove it and
reject with a timeout error naming the event; otherwise do nothing. -/
def fireTimeout (a : Adapter) (mid : String) (event : String) : Adapter :=
  if hasKey a.pending mid then
    { a with pending := removeKey a.pending mid,
             settleLog := a.settleLog ++
               [(mid, Settlement.rejected ("Ask \"" ++ event ++ "\" timed out"))] }
  else a

/-- askChatbot up to its suspension point: generate the fresh correlation
id from the incremented counter, record the pending entry, and post the
request envelope. Returns the new state and the correlation id; the timer
it starts is modelled by a later fireTimeout with the same id and event. -/
def askChatbot (a : Adapter) (event : String) (payload : Val) : Adapter × String :=
  let c := a.counter + 1
  let mid := "website-ask-" ++ toString c
  (sendMessage { a with counter := c, pending := a.pending ++ [mid] }
     { type := MsgType.ask, event := event, payload := payload, messageId := some mid },
   mid)

/-- dispose: detach the window message listener and clear the pending ask
map and the registered tool map. The stored resolve/reject callbacks are
discarded without being called, so settleLog is untouched. -/
def dispose (a : Adapter) : Adapter :=
  { a with listening := false, pending := [], tools := [] }

/-- The events that can reach one adapter after a point in time: an
inbound window message, a pending-ask timer firing (with the correlation
id and event name captured by the timeout closure), or a dispose call. -/
inductive AdapterEvent where
  | inbound : RawMessage → AdapterEvent
  | timerFire : String → String → AdapterEvent
  | disposeCall : AdapterEvent

/-- One step of the adapter under an event. -/
def applyEvent (a : Adapter) : AdapterEvent → Adapter
  | AdapterEvent.inbound r => deliverWindowMessage a r
  | AdapterEvent.timerFire mid event => fireTimeout a mid event
  | AdapterEvent.disposeCall => dispose a

/-- Run a sequence of adapter events. -/
def runEvents (a : Adapter) : List AdapterEvent → Adapter
  | [] => a
  | ev :: rest => runEvents (applyEvent a ev) rest

/-- registerTool up to its suspension point: enter the tool into the
local registered tool map, then issue the 'chatbot:register-tool' ask
(whose payload carries the tool's name, description and JSON schema).
Returns the new state and the ask's correlation id. -/
def registerToolStart (a : Adapter) (t : RegisteredTool) : Adapter × String :=
  askChatbot { a with tools := mapSet a.tools t.name t }
    "chatbot:register-tool" (Val.toolSpec t.name t.description)

/-- registerTool from its suspension point on, applied to the settlement
of the 'chatbot:register-tool' ask: when the ask rejects the error
propagates to the caller and the local entry is left in place; when it
resolves, the local entry is removed exactly when result.success is
falsy. -/
def registerToolFinish (a : Adapter) (t : RegisteredTool) : Settlement → Adapter
  | Settlement.rejected _ => a
  | Settlement.resolved v =>
    if valSuccessField v then a else { a with tools := mapDelete a.tools t.name }

/-- A registry state with two live subscribers on "evt": subscriber 0
throws on every payload, subscriber 1 never throws. -/
def throwingPairRegistry : TwoWayProtocol Nat :=
  { listeners := [("evt",
      { queue := [],
        currentListeners := [{ id := 0, fails := fun _ => true },
                             { id := 1, fails := fun _ => false }] })],
    handlers := [], id := 2 }

/-- A registry state with two live non-throwing subscribers (ids 0 and 1)
on "evt". -/
def twoListenerRegistry : TwoWayProtocol Nat :=
  { listeners := [("evt",
      { queue := [],
        currentListeners := [{ id := 0, fails := fun _ => false },
                             { id := 1, fails := fun _ => false }] })],
    handlers := [], id := 2 }

/-- An empty registry with "evt" freshly declared. -/
def freshChannelRegistry : TwoWayProtocol Nat :=
  (TwoWayProtocol.declareTellEvent { listeners := [], handlers := [], id := 0 } "evt").1

/-- The registry after declaring "evt", subscribing one listener (id 0)
and then removing it again. -/
def subscribedThenRemoved : TwoWayProtocol Nat :=
  (TwoWayProtocol.off
    (TwoWayProtocol.on freshChannelRegistry "evt" (fun _ => false)).1
    "evt" 0).1

/-- A registry holding a non-overwritable ask handler for "guarded". -/
def lockedHandlerRegistry : TwoWayProtocol Nat :=
  { listeners := [], handlers := [("guarded",
      { id := 0, run := fun v => Except.ok v, preventOverwrite := true })], id := 1 }

/-- An adapter-side registry with an "echo" ask handler. -/
def echoRegistry : TwoWayProtocol Val :=
  { listeners := [], handlers := [("echo",
      { id := 0, run := fun v => Except.ok v, preventOverwrite := false })], id := 1 }

/-- An adapter with one outstanding ask (correlation id "website-ask-1"). -/
def samplePendingAdapter : Adapter :=
  { incoming := echoRegistry, pending := ["website-ask-1"], tools := [], counter := 1,
    listening := true, windowLive := true, outbox := [], settleLog := [] }

/-- An idle connected adapter with no pending asks. -/
def sampleIdleAdapter : Adapter :=
  { incoming := echoRegistry, pending := [], tools := [], counter := 0,
    listening := true, windowLive := true, outbox := [], settleLog := [] }

/-- An inbound request envelope for the "echo" ask, from the iframe and
carrying the protocol marker. -/
def sampleAskRaw : RawMessage :=
  { fromIframe := true, isObject := true, marker := protocolMarker,
    msg := { type := MsgType.ask, event := "echo", payload := Val.num 3,
             messageId := some "chatbot-ask-1" } }

/-- A response envelope from the chatbot matching correlation id
"website-ask-1" and reporting success. -/
def sampleResponseRaw : RawMessage :=
  { fromIframe := true, isObject := true, marker := protocolMarker,
    msg := { type := MsgType.askResponse, event := "echo", payload := Val.okv true (Val.num 7),
             messageId := some "website-ask-1" } }

/-- A sample tool: validates that its argument is a number and returns
its successor. -/
def adderTool : RegisteredTool :=
  { name := "adder", description := "adds one",
    parse := fun v => match v with
      | Val.num n => Except.ok (Val.num n)
      | _ => Except.error "ZodError: expected number",
    execute := fun v => match v with
      | Val.num n => Except.ok (Val.num (n + 1))
      | _ => Except.error "TypeError" }

theorem mapGet_mapSet_self {α : Type} (m : List (String × α)) (k : String) (v : α) :
    mapGet (mapSet m k v) k = some v := by
  induction m with
  | nil => simp [mapSet, mapGet]
  | cons hd tl ih =>
    obtain ⟨k1, v1⟩ := hd
    by_cases h : k1 = k
    · simp [mapSet, mapGet, h]
    · simp [mapSet, mapGet, h, ih]

theorem mapGet_mapSet_other {α : Type} (m : List (String × α)) (k key : String) (v : α)
    (h : key ≠ k) : mapGet (mapSet m k v) key = mapGet m key := by
  induction m with
  | nil => simp [mapSet, mapGet, Ne.symm h]
  | cons hd tl ih =>
    obtain ⟨k1, v1⟩ := hd
    by_cases h1 : k1 = k
    · subst h1
      simp [mapSet, mapGet, Ne.symm h]
    · simp [mapSet, mapGet, h1, ih]

theorem mapSet_same {α : Type} (m : List (String × α)) (k : String) (v : α)
    (h : mapGet m k = some v) : mapSet m k v = m := by
  induction m with
  | nil => simp [mapGet] at h
  | cons hd tl ih =>
    obtain ⟨k1, v1⟩ := hd
    by_cases h1 : k1 = k
    · simp [mapGet, h1] at h
      simp [mapSet, h1, h]
    · simp [mapGet, h1] at h
      simp [mapSet, h1, ih h]

theorem mapGet_mapDelete_self {α : Type} (m : List (String × α)) (k : String) :
    mapGet (mapDelete m k) k = none := by
  induction m with
  | nil => simp [mapDelete, mapGet]
  | cons hd tl ih =>
    obtain ⟨k1, v1⟩ := hd
    by_cases h : k1 = k
    · simp [mapDelete, h, ih]
    · simp [mapDelete, mapGet, h, ih]

theorem hasKey_removeKey_self (l : List String) (k : String) :
    hasKey (removeKey l k) k = false := by
  induction l with
  | nil => simp [removeKey, hasKey]
  | cons x rest ih =>
    by_cases h : x = k
    · simp [removeKey, h, ih]
    · simp [removeKey, hasKey, h, ih]

theorem hasKey_removeKey_other (l : List String) (k key : String) (h : key ≠ k) :
    hasKey (removeKey l k) key = hasKey l key := by
  induction l with
  | nil => simp [removeKey]
  | cons x rest ih =>
    by_cases h1 : x = k
    · subst h1
      simp [removeKey, hasKey, Ne.symm h, ih]
    · by_cases h2 : x = key
      · subst h2
        simp [removeKey, hasKey, h]
      · simp [removeKey, hasKey, h1, h2, ih]

theorem settlementsFor_append (log : List (String × Settlement)) (k : String) (s : Settlement)
    (key : String) :
    settlementsFor (log ++ [(k, s)]) key
      = settlementsFor log key ++ (if k = key then [s] else []) := by
  induction log with
  | nil =>
    by_cases h : k = key <;> simp [settlementsFor, h]
  | cons hd tl ih =>
    obtain ⟨k1, s1⟩ := hd
    by_cases h : k1 = key <;> simp [settlementsFor, h, ih]

theorem drainRun_all_ok {V : Type} (fails : V → Bool) (vs : List V)
    (h : ∀ v ∈ vs, fails v = false) : drainRun fails vs = (vs, true) := by
  induction vs with
  | nil => rfl
  | cons v rest ih =>
    have hv : fails v = false := h v (by simp)
    have hr := ih (fun w hw => h w (by simp [hw]))
    simp [drainRun, hv, hr]

theorem tellRun_fst_eq_invokedUntilFailure {V : Type} (payload : V)
    (ls : List (PooledListener V)) :
    (tellRun payload ls).1 = invokedUntilFailure payload ls := by
  induction ls with
  | nil => rfl
  | cons l rest ih =>
    cases h : l.fails payload <;> simp [tellRun, invokedUntilFailure, h, ih]

theorem tellRun_all_ok {V : Type} (payload : V) (ls : List (PooledListener V))
    (h : ∀ l ∈ ls, l.fails payload = false) :
    tellRun payload ls = (ls.map (fun l => l.id), true) := by
  induction ls with
  | nil => rfl
  | cons l rest ih =>
    have hl : l.fails payload = false := h l (by simp)
    have hr := ih (fun m hm => h m (by simp [hm]))
    simp [tellRun, hl, hr]

theorem tellAll_buffers {V : Type} (vs : List V) (p : TwoWayProtocol V) (name : String)
    (q : List V)
    (h : mapGet p.listeners name = some { queue := q, currentListeners := [] }) :
    mapGet (tellAll p name vs).listeners name
      = some { queue := q ++ vs, currentListeners := [] } := by
  induction vs generalizing p q with
  | nil => simpa using h
  | cons v rest ih =>
    have step : mapGet (TwoWayProtocol.tell p name v).1.listeners name
        = some { queue := q ++ [v], currentListeners := [] } := by
      simp [TwoWayProtocol.tell, h, mapGet_mapSet_self]
    have := ih (TwoWayProtocol.tell p name v).1 (q ++ [v]) step
    simpa [tellAll] using this

theorem on_drains_buffer {V : Type} (p : TwoWayProtocol V) (name : String) (q : List V)
    (f : V → Bool)
    (hch : mapGet p.listeners name = some { queue := q, currentListeners := [] })
    (hf : ∀ v ∈ q, f v = false) :
    (TwoWayProtocol.on p name f).2.1 = q
    ∧ mapGet (TwoWayProtocol.on p name f).1.listeners name
        = some { queue := [], currentListeners := [{ id := p.id, fails := f }] }
    ∧ (TwoWayProtocol.on p name f).2.2 = Except.ok p.id := by
  cases q with
  | nil => simp [TwoWayProtocol.on, hch, mapGet_mapSet_self]
  | cons v rest =>
    have hd := drainRun_all_ok f (v :: rest) hf
    simp [TwoWayProtocol.on, hch, hd, mapGet_mapSet_self]

/-- Claim C1, counterexample. The claim says a subscriber's callback
throwing does not prevent delivery of the payload to the remaining
subscribers. In the registry state throwingPairRegistry, broadcasting 5 on
"evt" invokes only subscriber 0 (whose callback throws): the delivery loop
aborts, the exception propagates, and the remaining subscriber 1 is never
invoked with the payload — refuting per-subscriber isolation. -/
theorem broadcast_throw_aborts_sibling_delivery :
    (TwoWayProtocol.tell throwingPairRegistry "evt" 5).2.1 = [0]
    ∧ (TwoWayProtocol.tell throwingPairRegistry "evt" 5).2.2 = TellOutcome.listenerThrew
    ∧ 1 ∉ (TwoWayProtocol.tell throwingPairRegistry "evt" 5).2.1 := by
  refine ⟨rfl, rfl, by decide⟩

/-- Claim C1 as amended: for a declared tell event with at least one
subscriber, broadcast invokes the subscribers synchronously with the
payload, in subscription order, up to and including the first subscriber
whose callback throws; that throw propagates to the broadcaster and the
remaining subscribers are not invoked. When no subscriber throws, every
subscriber receives the payload in subscription order. -/
theorem tell_delivers_in_order_until_first_throw {V : Type} (p : TwoWayProtocol V)
    (name : String) (payload : V) (pool : TellChannel V)
    (h : mapGet p.listeners name = some pool)
    (hne : pool.currentListeners ≠ []) :
    (TwoWayProtocol.tell p name payload).2.1
        = invokedUntilFailure payload pool.currentListeners
    ∧ ((∀ l ∈ pool.currentListeners, l.fails payload = false) →
        (TwoWayProtocol.tell p name payload).2.1
            = pool.currentListeners.map (fun l => l.id)
        ∧ (TwoWayProtocol.tell p name payload).2.2 = TellOutcome.delivered) := by
  have hlen : ¬ pool.currentListeners.length = 0 := by
    simpa [List.length_eq_zero] using hne
  constructor
  · simp [TwoWayProtocol.tell, h, hlen, tellRun_fst_eq_invokedUntilFailure]
  · intro hall
    have hr := tellRun_all_ok payload pool.currentListeners hall
    simp [TwoWayProtocol.tell, h, hlen, hr]

/-- Witness for the amended claim C1: in twoListenerRegistry (no throwing
subscriber) broadcasting 3 delivers to both subscribers in order. -/
theorem tell_delivers_in_order_until_first_throw_witness :
    (TwoWayProtocol.tell twoListenerRegistry "evt" 3).2.1 = [0, 1]
    ∧ (TwoWayProtocol.tell twoListenerRegistry "evt" 3).2.2 = TellOutcome.delivered := by
  have h := tell_delivers_in_order_until_first_throw twoListenerRegistry "evt" 3
      { queue := [],
        currentListeners := [{ id := 0, fails := fun _ => false },
                             { id := 1, fails := fun _ => false }] }
      rfl (by simp) |>.2 (by decide)
  exact ⟨h.1, h.2⟩

/-- Claim C4, counterexample. The claim says that once at least one
subscriber has existed on the channel, no later broadcast payload is ever
appended to the buffer, including after subscribers are removed. In
subscribedThenRemoved a subscriber existed on "evt" (so its buffer was
drained) and was then removed; broadcasting 7 afterwards appends 7 to the
buffer again, refuting the claim. -/
theorem broadcast_buffers_again_after_last_unsubscribe :
    mapGet (TwoWayProtocol.tell subscribedThenRemoved "evt" 7).1.listeners "evt"
      = some { queue := [7], currentListeners := [] } := rfl

/-- Claim C4 as amended: broadcasts bypass the channel's buffer exactly
while at least one subscriber is present (the registry state is then left
unchanged, nothing is appended to the buffer); once the channel again has
zero subscribers — in particular after all subscribers are removed —
broadcast payloads are appended to the buffer again. -/
theorem tell_bypasses_buffer_only_while_subscribed {V : Type} (p : TwoWayProtocol V)
    (name : String) (payload : V) (pool : TellChannel V)
    (h : mapGet p.listeners name = some pool) :
    (pool.currentListeners ≠ [] → (TwoWayProtocol.tell p name payload).1 = p)
    ∧ (pool.currentListeners = [] →
        mapGet (TwoWayProtocol.tell p name payload).1.listeners name
          = some { queue := pool.queue ++ [payload], currentListeners := [] }) := by
  constructor
  · intro hne
    have hlen : ¬ pool.currentListeners.length = 0 := by
      simpa [List.length_eq_zero] using hne
    simp [TwoWayProtocol.tell, h, hlen]
  · intro he
    simp [TwoWayProtocol.tell, h, he, mapGet_mapSet_self]

/-- Witness for the amended claim C4: with two live subscribers the
broadcast leaves the registry (hence the buffer) unchanged; with the
subscriber removed again, the payload is buffered. -/
theorem tell_bypasses_buffer_only_while_subscribed_witness :
    (TwoWayProtocol.tell twoListenerRegistry "evt" 3).1 = twoListenerRegistry
    ∧ mapGet (TwoWayProtocol.tell subscribedThenRemoved "evt" 9).1.listeners "evt"
        = some { queue := [9], currentListeners := [] } := by
  constructor
  · exact (tell_bypasses_buffer_only_while_subscribed twoListenerRegistry "evt" 3
      { queue := [],
        currentListeners := [{ id := 0, fails := fun _ => false },
                             { id := 1, fails := fun _ => false }] }
      rfl).1 (by simp)
  · exact (tell_bypasses_buffer_only_while_subscribed subscribedThenRemoved "evt" 9
      { queue := [], currentListeners := [] } rfl).2 rfl

theorem on_empty_queue_delivers_nothing {V : Type} (p : TwoWayProtocol V) (name : String)
    (f : V → Bool) (pool : TellChannel V)
    (hch : mapGet p.listeners name = some pool) (hq : pool.queue = []) :
    (TwoWayProtocol.on p name f).2.1 = [] := by
  simp [TwoWayProtocol.on, hch, hq]

theorem filter_ne_keeps_all {V : Type} (i : Nat) (xs : List (PooledListener V))
    (h : ∀ m ∈ xs, m.id ≠ i) : xs.filter (fun x => decide (x.id ≠ i)) = xs := by
  induction xs with
  | nil => rfl
  | cons x rest ih =>
    have hx : (decide (x.id ≠ i)) = true := by
      simpa using h x (by simp)
    rw [List.filter_cons, hx]
    simp only [if_true]
    rw [ih (fun m hm => h m (by simp [hm]))]

theorem filter_removes_single {V : Type} (i : Nat) (pre post : List (PooledListener V))
    (l : PooledListener V) (hid : l.id = i)
    (hpre : ∀ m ∈ pre, m.id ≠ i) (hpost : ∀ m ∈ post, m.id ≠ i) :
    (pre ++ l :: post).filter (fun x => decide (x.id ≠ i)) = pre ++ post := by
  have hcons : (l :: post).filter (fun x => decide (x.id ≠ i)) = post := by
    have hl : (decide (l.id ≠ i)) = false := by simp [hid]
    rw [List.filter_cons, hl, if_neg (by simp)]
    exact filter_ne_keeps_all i post hpost
  rw [List.filter_append, filter_ne_keeps_all i pre hpre, hcons]

theorem off_some_eq {V : Type} (p : TwoWayProtocol V) (name : String) (i : Nat)
    (pool : TellChannel V) (hpool : mapGet p.listeners name = some pool) :
    TwoWayProtocol.off p name i
      = ({ p with listeners := mapSet p.listeners name
                    ({ pool with currentListeners :=
                        pool.currentListeners.filter (fun l => decide (l.id ≠ i)) }) },
         decide (pool.currentListeners.length
           ≠ (pool.currentListeners.filter (fun l => decide (l.id ≠ i))).length)) := by
  unfold TwoWayProtocol.off
  rw [hpool]

/-- Claim C3: broadcasting on a declared tell channel while it has zero
subscribers appends each payload to the buffer in order; the first
subscriber, on subscribing, synchronously receives every buffered payload
in buffering order exactly once (it is the only listener the drain loop
invokes), after which the buffer is cleared, so a second, later subscriber
receives none of them. -/
theorem tell_buffers_and_first_subscriber_drains {V : Type} (p : TwoWayProtocol V)
    (name : String) (vs : List V) (f g : V → Bool)
    (hch : mapGet p.listeners name = some { queue := [], currentListeners := [] })
    (hf : ∀ v ∈ vs, f v = false) :
    mapGet (tellAll p name vs).listeners name
        = some { queue := vs, currentListeners := [] }
    ∧ (TwoWayProtocol.on (tellAll p name vs) name f).2.1 = vs
    ∧ mapGet (TwoWayProtocol.on (tellAll p name vs) name f).1.listeners name
        = some { queue := [],
                 currentListeners := [{ id := (tellAll p name vs).id, fails := f }] }
    ∧ (TwoWayProtocol.on
        (TwoWayProtocol.on (tellAll p name vs) name f).1 name g).2.1 = [] := by
  have hbuf := tellAll_buffers vs p name [] hch
  simp only [List.nil_append] at hbuf
  obtain ⟨hlog, hch2, _⟩ := on_drains_buffer (tellAll p name vs) name vs f hbuf hf
  have hsecond := on_empty_queue_delivers_nothing
      (TwoWayProtocol.on (tellAll p name vs) name f).1 name g _ hch2 rfl
  exact ⟨hbuf, hlog, hch2, hsecond⟩

/-- Witness for claim C3: on a fresh "evt" channel, broadcasting 10 then
20 buffers them in order; the first subscriber receives [10, 20]; a second
subscriber receives nothing. -/
theorem tell_buffers_and_first_subscriber_drains_witness :
    mapGet (tellAll freshChannelRegistry "evt" [10, 20]).listeners "evt"
        = some { queue := [10, 20], currentListeners := [] }
    ∧ (TwoWayProtocol.on (tellAll freshChannelRegistry "evt" [10, 20]) "evt"
        (fun _ => false)).2.1 = [10, 20]
    ∧ (TwoWayProtocol.on
        (TwoWayProtocol.on (tellAll freshChannelRegistry "evt" [10, 20]) "evt"
          (fun _ => false)).1
        "evt" (fun _ => false)).2.1 = [] := by
  have h := tell_buffers_and_first_subscriber_drains freshChannelRegistry "evt" [10, 20]
      (fun _ => false) (fun _ => false) rfl (by intro v hv; rfl)
  exact ⟨h.1, h.2.1, h.2.2.2⟩

/-- Claim C7: registering a responder fails (with the responder-locked
error) exactly when an existing responder for that name was registered
with preventOverwrite; otherwise the new responder is installed — whether
or not a replaceable one was present — and the call returns the new
responder's id together with a flag saying whether it replaced an existing
one, and every subsequent ask for that name invokes the newest handler. -/
theorem registerResponder_locking_and_replacement {V : Type} (p : TwoWayProtocol V)
    (name : String) (run : V → Except String V) (options : Option Bool) :
    ((∃ msg, (TwoWayProtocol.registerUniqueAskHandler p name run options).2
        = Except.error msg)
      ↔ ∃ existing, mapGet p.handlers name = some existing
          ∧ existing.preventOverwrite = true)
    ∧ (mapGet p.handlers name = none →
        (TwoWayProtocol.registerUniqueAskHandler p name run options).2
            = Except.ok (p.id, false)
        ∧ ∀ payload,
            TwoWayProtocol.ask (TwoWayProtocol.registerUniqueAskHandler p name run options).1
              name payload = run payload)
    ∧ (∀ existing, mapGet p.handlers name = some existing →
        existing.preventOverwrite = false →
        (TwoWayProtocol.registerUniqueAskHandler p name run options).2
            = Except.ok (p.id, true)
        ∧ ∀ payload,
            TwoWayProtocol.ask (TwoWayProtocol.registerUniqueAskHandler p name run options).1
              name payload = run payload) := by
  refine ⟨?_, ?_, ?_⟩
  · constructor
    · rintro ⟨msg, hmsg⟩
      cases hex : mapGet p.handlers name with
      | none => simp [TwoWayProtocol.registerUniqueAskHandler, hex] at hmsg
      | some existing =>
        cases hpo : existing.preventOverwrite with
        | false => simp [TwoWayProtocol.registerUniqueAskHandler, hex, hpo] at hmsg
        | true => exact ⟨existing, rfl, hpo⟩
    · rintro ⟨existing, hex, hpo⟩
      refine ⟨"Handler for " ++ name ++ " already exists and it set itself as not overwritable",
        ?_⟩
      simp [TwoWayProtocol.registerUniqueAskHandler, hex, hpo]
  · intro hnone
    constructor
    · simp [TwoWayProtocol.registerUniqueAskHandler, hnone]
    · intro payload
      simp [TwoWayProtocol.registerUniqueAskHandler, hnone, TwoWayProtocol.ask,
        mapGet_mapSet_self]
  · intro existing hex hpo
    constructor
    · simp [TwoWayProtocol.registerUniqueAskHandler, hex, hpo]
    · intro payload
      simp [TwoWayProtocol.registerUniqueAskHandler, hex, hpo, TwoWayProtocol.ask,
        mapGet_mapSet_self]

/-- Witness for claim C7: re-registering on the locked "guarded" name
fails; registering on the fresh name "fresh" returns id 1 with the
replaced flag false, and a subsequent ask runs the new handler. -/
theorem registerResponder_locking_and_replacement_witness :
    (∃ msg, (TwoWayProtocol.registerUniqueAskHandler lockedHandlerRegistry "guarded"
        (fun v => Except.ok v) none).2 = Except.error msg)
    ∧ (TwoWayProtocol.registerUniqueAskHandler lockedHandlerRegistry "fresh"
        (fun _ => Except.ok 9) none).2 = Except.ok (1, false)
    ∧ TwoWayProtocol.ask (TwoWayProtocol.registerUniqueAskHandler lockedHandlerRegistry "fresh"
        (fun _ => Except.ok 9) none).1 "fresh" 5 = Except.ok 9 := by
  refine ⟨?_, ?_, ?_⟩
  · exact (registerResponder_locking_and_replacement lockedHandlerRegistry "guarded"
      (fun v => Except.ok v) none).1.mpr ⟨_, rfl, rfl⟩
  · exact ((registerResponder_locking_and_replacement lockedHandlerRegistry "fresh"
      (fun _ => Except.ok 9) none).2.1 rfl).1
  · exact ((registerResponder_locking_and_replacement lockedHandlerRegistry "fresh"
      (fun _ => Except.ok 9) none).2.1 rfl).2 5

/-- Claim C9: unsubscribing from an unknown event name, or from a known
channel with an id no current subscriber carries, returns false and leaves
the whole registry state unchanged; unsubscribing with the id of exactly
one current subscriber removes exactly that subscriber, keeps every other
subscriber (in order) and the channel's buffer, keeps every other channel,
and returns true. -/
theorem unsubscribe_noop_or_single_removal {V : Type} (p : TwoWayProtocol V)
    (name : String) (i : Nat) :
    (mapGet p.listeners name = none → TwoWayProtocol.off p name i = (p, false))
    ∧ (∀ pool, mapGet p.listeners name = some pool →
        ((∀ l ∈ pool.currentListeners, l.id ≠ i) →
            TwoWayProtocol.off p name i = (p, false))
        ∧ (∀ pre l post, pool.currentListeners = pre ++ l :: post → l.id = i →
            (∀ m ∈ pre, m.id ≠ i) → (∀ m ∈ post, m.id ≠ i) →
            (TwoWayProtocol.off p name i).2 = true
            ∧ mapGet (TwoWayProtocol.off p name i).1.listeners name
                = some { queue := pool.queue, currentListeners := pre ++ post }
            ∧ ∀ other, other ≠ name →
                mapGet (TwoWayProtocol.off p name i).1.listeners other
                  = mapGet p.listeners other)) := by
  constructor
  · intro hnone
    simp [TwoWayProtocol.off, hnone]
  · intro pool hpool
    constructor
    · intro hno
      have hfix := filter_ne_keeps_all i pool.currentListeners hno
      have heq := off_some_eq p name i pool hpool
      rw [hfix] at heq
      rw [show ({ pool with currentListeners := pool.currentListeners } : TellChannel V)
            = pool from rfl] at heq
      rw [mapSet_same p.listeners name pool hpool] at heq
      rw [show ({ p with listeners := p.listeners } : TwoWayProtocol V) = p from rfl] at heq
      rw [heq]
      simp
    · intro pre l post hsplit hid hpre hpost
      have hfil : pool.currentListeners.filter (fun x => decide (x.id ≠ i))
          = pre ++ post := by
        rw [hsplit]
        exact filter_removes_single i pre post l hid hpre hpost
      have heq := off_some_eq p name i pool hpool
      rw [hfil] at heq
      have h1 := congrArg Prod.fst heq
      have h2 := congrArg Prod.snd heq
      refine ⟨?_, ?_, ?_⟩
      · rw [h2, hsplit]
        simp only [decide_eq_true_eq, List.length_append, List.length_cons, ne_eq]
        omega
      · rw [h1]
        exact mapGet_mapSet_self p.listeners name _
      · intro other hother
        rw [h1]
        exact mapGet_mapSet_other p.listeners name other _ hother

/-- Witness for claim C9: on twoListenerRegistry, unsubscribing from the
unknown name "other" and unsubscribing id 5 from "evt" are no-ops
returning false; unsubscribing id 0 from "evt" returns true and leaves
exactly subscriber 1 with an unchanged buffer. -/
theorem unsubscribe_noop_or_single_removal_witness :
    TwoWayProtocol.off twoListenerRegistry "other" 0 = (twoListenerRegistry, false)
    ∧ TwoWayProtocol.off twoListenerRegistry "evt" 5 = (twoListenerRegistry, false)
    ∧ (TwoWayProtocol.off twoListenerRegistry "evt" 0).2 = true
    ∧ mapGet (TwoWayProtocol.off twoListenerRegistry "evt" 0).1.listeners "evt"
        = some { queue := [],
                 currentListeners := [{ id := 1, fails := fun _ => false }] } := by
  refine ⟨?_, ?_, ?_, ?_⟩
  · exact (unsubscribe_noop_or_single_removal twoListenerRegistry "other" 0).1 rfl
  · exact ((unsubscribe_noop_or_single_removal twoListenerRegistry "evt" 5).2
      { queue := [],
        currentListeners := [{ id := 0, fails := fun _ => false },
                             { id := 1, fails := fun _ => false }] }
      rfl).1 (by decide)
  · exact (((unsubscribe_noop_or_single_removal twoListenerRegistry "evt" 0).2
      { queue := [],
        currentListeners := [{ id := 0, fails := fun _ => false },
                             { id := 1, fails := fun _ => false }] }
      rfl).2 [] { id := 0, fails := fun _ => false } [{ id := 1, fails := fun _ => false }]
      rfl rfl (by intro m hm; simp at hm) (by decide)).1
  · exact (((unsubscribe_noop_or_single_removal twoListenerRegistry "evt" 0).2
      { queue := [],
        currentListeners := [{ id := 0, fails := fun _ => false },
                             { id := 1, fails := fun _ => false }] }
      rfl).2 [] { id := 0, fails := fun _ => false } [{ id := 1, fails := fun _ => false }]
      rfl rfl (by intro m hm; simp at hm) (by decide)).2.1

theorem settle_step_invariant (pending : List String) (log : List (String × Settlement))
    (mid mid2 : String) (s : Settlement)
    (hk : hasKey pending mid2 = true)
    (h1 : hasKey pending mid = true → settlementsFor log mid = [])
    (h2 : (settlementsFor log mid).length ≤ 1) :
    (hasKey (removeKey pending mid2) mid = true →
      settlementsFor (log ++ [(mid2, s)]) mid = [])
    ∧ (settlementsFor (log ++ [(mid2, s)]) mid).length ≤ 1 := by
  by_cases hmm : mid2 = mid
  · subst hmm
    have hempty := h1 hk
    constructor
    · intro habs
      rw [hasKey_removeKey_self] at habs
      simp at habs
    · rw [settlementsFor_append, hempty, if_pos rfl]
      simp
  · constructor
    · intro hkey
      rw [hasKey_removeKey_other pending mid2 mid (fun hc => hmm hc.symm)] at hkey
      rw [settlementsFor_append, if_neg hmm]
      simpa using h1 hkey
    · rw [settlementsFor_append, if_neg hmm]
      simpa using h2

theorem handleMessage_preserves_settle_invariant (a : Adapter) (mid : String) (r : RawMessage)
    (h1 : hasKey a.pending mid = true → settlementsFor a.settleLog mid = [])
    (h2 : (settlementsFor a.settleLog mid).length ≤ 1) :
    (hasKey (handleMessage a r).pending mid = true →
      settlementsFor (handleMessage a r).settleLog mid = [])
    ∧ (settlementsFor (handleMessage a r).settleLog mid).length ≤ 1 := by
  unfold handleMessage
  split
  · split
    · exact ⟨h1, h2⟩
    · unfold dispatchAsk
      split
      · unfold sendMessage
        split
        · exact ⟨h1, h2⟩
        · exact ⟨h1, h2⟩
      · unfold sendMessage
        split
        · exact ⟨h1, h2⟩
        · exact ⟨h1, h2⟩
    · unfold dispatchAskResponse
      split
      · exact ⟨h1, h2⟩
      · rename_i mid2 hmeq
        split
        · rename_i hk
          exact settle_step_invariant a.pending a.settleLog mid mid2
            (settleOf r.msg.payload) hk h1 h2
        · exact ⟨h1, h2⟩
  · exact ⟨h1, h2⟩

theorem fireTimeout_preserves_settle_invariant (a : Adapter) (mid mid2 e : String)
    (h1 : hasKey a.pending mid = true → settlementsFor a.settleLog mid = [])
    (h2 : (settlementsFor a.settleLog mid).length ≤ 1) :
    (hasKey (fireTimeout a mid2 e).pending mid = true →
      settlementsFor (fireTimeout a mid2 e).settleLog mid = [])
    ∧ (settlementsFor (fireTimeout a mid2 e).settleLog mid).length ≤ 1 := by
  unfold fireTimeout
  split
  · rename_i hk
    exact settle_step_invariant a.pending a.settleLog mid mid2
      (Settlement.rejected ("Ask \"" ++ e ++ "\" timed out")) hk h1 h2
  · exact ⟨h1, h2⟩

theorem applyEvent_preserves_settle_invariant (a : Adapter) (mid : String) (ev : AdapterEvent)
    (h1 : hasKey a.pending mid = true → settlementsFor a.settleLog mid = [])
    (h2 : (settlementsFor a.settleLog mid).length ≤ 1) :
    (hasKey (applyEvent a ev).pending mid = true →
      settlementsFor (applyEvent a ev).settleLog mid = [])
    ∧ (settlementsFor (applyEvent a ev).settleLog mid).length ≤ 1 := by
  cases ev with
  | inbound r =>
    simp only [applyEvent]
    unfold deliverWindowMessage
    split
    · exact handleMessage_preserves_settle_invariant a mid r h1 h2
    · exact ⟨h1, h2⟩
  | timerFire mid2 e =>
    simp only [applyEvent]
    exact fireTimeout_preserves_settle_invariant a mid mid2 e h1 h2
  | disposeCall =>
    simp only [applyEvent]
    constructor
    · intro habs
      simp [dispose, hasKey] at habs
    · exact h2

theorem runEvents_preserves_settle_invariant (evs : List AdapterEvent) (a : Adapter)
    (mid : String)
    (h1 : hasKey a.pending mid = true → settlementsFor a.settleLog mid = [])
    (h2 : (settlementsFor a.settleLog mid).length ≤ 1) :
    (hasKey (runEvents a evs).pending mid = true →
      settlementsFor (runEvents a evs).settleLog mid = [])
    ∧ (settlementsFor (runEvents a evs).settleLog mid).length ≤ 1 := by
  induction evs generalizing a with
  | nil => exact ⟨h1, h2⟩
  | cons ev rest ih =>
    obtain ⟨g1, g2⟩ := applyEvent_preserves_settle_invariant a mid ev h1 h2
    exact ih (applyEvent a ev) g1 g2

theorem fireTimeout_pos (a : Adapter) (mid e : String)
    (hk : hasKey a.pending mid = true) :
    fireTimeout a mid e
      = { a with pending := removeKey a.pending mid,
                 settleLog := a.settleLog ++
                   [(mid, Settlement.rejected ("Ask \"" ++ e ++ "\" timed out"))] } := by
  simp [fireTimeout, hk]

theorem fireTimeout_neg (a : Adapter) (mid e : String)
    (hk : hasKey a.pending mid = false) :
    fireTimeout a mid e = a := by
  simp [fireTimeout, hk]

theorem askResponse_noop_when_not_pending (a : Adapter) (r : RawMessage) (mid : String)
    (htype : r.msg.type = MsgType.askResponse) (hmid : r.msg.messageId = some mid)
    (hnk : hasKey a.pending mid = false) :
    deliverWindowMessage a r = a := by
  by_cases hl : a.listening = true
  · by_cases hacc : acceptsMessage r = true
    · simp [deliverWindowMessage, hl, handleMessage, hacc, htype, dispatchAskResponse,
        hmid, hnk]
    · simp [deliverWindowMessage, hl, handleMessage, hacc]
  · simp [deliverWindowMessage, hl]

theorem askResponse_settles_when_pending (a : Adapter) (r : RawMessage) (mid : String)
    (hl : a.listening = true) (hacc : acceptsMessage r = true)
    (htype : r.msg.type = MsgType.askResponse) (hmid : r.msg.messageId = some mid)
    (hk : hasKey a.pending mid = true) :
    deliverWindowMessage a r
      = { a with pending := removeKey a.pending mid,
                 settleLog := a.settleLog ++ [(mid, settleOf r.msg.payload)] } := by
  simp [deliverWindowMessage, hl, handleMessage, hacc, htype, dispatchAskResponse, hmid, hk]

/-- Claim C2: for an outbound ask with pending correlation id `mid` (not
yet settled), the promise settles at most once under any sequence of
inbound messages, timer firings and dispose calls; whichever of the
matching response and the timeout happens first wins and removes the
pending entry, and the other becomes a no-op; the timeout rejects with an
error naming the event, and a response arriving after the timeout is
silently ignored (the adapter state does not change at all). -/
theorem pending_ask_settles_at_most_once (a : Adapter) (mid e : String)
    (hpend : hasKey a.pending mid = true)
    (hnew : settlementsFor a.settleLog mid = [])
    (hlisten : a.listening = true) :
    (∀ evs, (settlementsFor (runEvents a evs).settleLog mid).length ≤ 1)
    ∧ (hasKey (fireTimeout a mid e).pending mid = false
       ∧ settlementsFor (fireTimeout a mid e).settleLog mid
           = [Settlement.rejected ("Ask \"" ++ e ++ "\" timed out")]
       ∧ (∀ r : RawMessage, r.msg.type = MsgType.askResponse →
            r.msg.messageId = some mid →
            deliverWindowMessage (fireTimeout a mid e) r = fireTimeout a mid e))
    ∧ (∀ r : RawMessage, acceptsMessage r = true → r.msg.type = MsgType.askResponse →
        r.msg.messageId = some mid →
        hasKey (deliverWindowMessage a r).pending mid = false
        ∧ settlementsFor (deliverWindowMessage a r).settleLog mid = [settleOf r.msg.payload]
        ∧ fireTimeout (deliverWindowMessage a r) mid e = deliverWindowMessage a r) := by
  refine ⟨?_, ?_, ?_⟩
  · intro evs
    exact (runEvents_preserves_settle_invariant evs a mid (fun _ => hnew)
      (by simp [hnew])).2
  · rw [fireTimeout_pos a mid e hpend]
    refine ⟨hasKey_removeKey_self a.pending mid, ?_, ?_⟩
    · show settlementsFor (a.settleLog
          ++ [(mid, Settlement.rejected ("Ask \"" ++ e ++ "\" timed out"))]) mid
        = [Settlement.rejected ("Ask \"" ++ e ++ "\" timed out")]
      rw [settlementsFor_append, hnew, if_pos rfl]
      rfl
    · intro r htype hmid
      exact askResponse_noop_when_not_pending _ r mid htype hmid
        (hasKey_removeKey_self a.pending mid)
  · intro r hacc htype hmid
    rw [askResponse_settles_when_pending a r mid hlisten hacc htype hmid hpend]
    refine ⟨hasKey_removeKey_self a.pending mid, ?_, ?_⟩
    · show settlementsFor (a.settleLog ++ [(mid, settleOf r.msg.payload)]) mid
        = [settleOf r.msg.payload]
      rw [settlementsFor_append, hnew, if_pos rfl]
      rfl
    · exact fireTimeout_neg _ mid e (hasKey_removeKey_self a.pending mid)

/-- Witness for claim C2: on samplePendingAdapter (one pending ask with
correlation id "website-ask-1"), firing the timeout removes the entry and
records exactly the timeout rejection naming the event, and a response
arriving afterwards leaves the state untouched. -/
theorem pending_ask_settles_at_most_once_witness :
    hasKey (fireTimeout samplePendingAdapter "website-ask-1" "chatbot:ping").pending
        "website-ask-1" = false
    ∧ settlementsFor
        (fireTimeout samplePendingAdapter "website-ask-1" "chatbot:ping").settleLog
        "website-ask-1"
      = [Settlement.rejected ("Ask \"" ++ "chatbot:ping" ++ "\" timed out")]
    ∧ deliverWindowMessage (fireTimeout samplePendingAdapter "website-ask-1" "chatbot:ping")
        sampleResponseRaw
      = fireTimeout samplePendingAdapter "website-ask-1" "chatbot:ping" := by
  have h := pending_ask_settles_at_most_once samplePendingAdapter "website-ask-1"
      "chatbot:ping" rfl rfl rfl
  exact ⟨h.2.1.1, h.2.1.2.1, h.2.1.2.2 sampleResponseRaw rfl rfl⟩

/-- Claim C5: an inbound envelope of kind ask that passes the source and
protocol-marker filters always gets exactly one response envelope posted
back (given the iframe window is available for posting): it is of kind
ask-response, echoes the request's event and correlation id, and carries
ok true with the handler's result when the local handler completes, or
ok false with the stringified failure when the handler throws, rejects, or
no handler is registered. -/
theorem inbound_ask_always_answered (a : Adapter) (r : RawMessage)
    (hacc : acceptsMessage r = true) (htype : r.msg.type = MsgType.ask)
    (hwin : a.windowLive = true) :
    ∃ resp : Envelope,
      handleMessage a r = { a with outbox := a.outbox ++ [resp] }
      ∧ resp.type = MsgType.askResponse
      ∧ resp.event = r.msg.event
      ∧ resp.messageId = r.msg.messageId
      ∧ ((∃ v, TwoWayProtocol.ask a.incoming r.msg.event r.msg.payload = Except.ok v
            ∧ resp.payload = Val.okv true v)
        ∨ (∃ err, TwoWayProtocol.ask a.incoming r.msg.event r.msg.payload = Except.error err
            ∧ resp.payload = Val.okv false (Val.str err)))
      ∧ (mapGet a.incoming.handlers r.msg.event = none →
          resp.payload = Val.okv false (Val.str ("No handler for " ++ r.msg.event))) := by
  cases hask : TwoWayProtocol.ask a.incoming r.msg.event r.msg.payload with
  | ok v =>
    refine ⟨{ type := MsgType.askResponse, event := r.msg.event,
              payload := Val.okv true v, messageId := r.msg.messageId }, ?_, rfl, rfl, rfl,
           Or.inl ⟨v, rfl, rfl⟩, ?_⟩
    · simp [handleMessage, hacc, htype, dispatchAsk, hask, sendMessage, hwin]
    · intro hnone
      have hcontra : TwoWayProtocol.ask a.incoming r.msg.event r.msg.payload
          = Except.error ("No handler for " ++ r.msg.event) := by
        simp [TwoWayProtocol.ask, hnone]
      rw [hask] at hcontra
      simp at hcontra
  | error err =>
    refine ⟨{ type := MsgType.askResponse, event := r.msg.event,
              payload := Val.okv false (Val.str err), messageId := r.msg.messageId }, ?_, rfl,
           rfl, rfl, Or.inr ⟨err, rfl, rfl⟩, ?_⟩
    · simp [handleMessage, hacc, htype, dispatchAsk, hask, sendMessage, hwin]
    · intro hnone
      have hcontra : TwoWayProtocol.ask a.incoming r.msg.event r.msg.payload
          = Except.error ("No handler for " ++ r.msg.event) := by
        simp [TwoWayProtocol.ask, hnone]
      rw [hask] at hcontra
      injection hcontra with h
      rw [h]

/-- Witness for claim C5: the inbound "echo" request against
sampleIdleAdapter gets a response envelope appended to the outbox, of kind
ask-response and echoing the correlation id. -/
theorem inbound_ask_always_answered_witness :
    acceptsMessage sampleAskRaw = true
    ∧ ∃ resp : Envelope,
        handleMessage sampleIdleAdapter sampleAskRaw
          = { sampleIdleAdapter with outbox := sampleIdleAdapter.outbox ++ [resp] }
        ∧ resp.type = MsgType.askResponse
        ∧ resp.messageId = sampleAskRaw.msg.messageId := by
  refine ⟨rfl, ?_⟩
  obtain ⟨resp, hmain, htype2, hev, hmid, hpay, hnone⟩ := inbound_ask_always_answered
      sampleIdleAdapter sampleAskRaw rfl rfl rfl
  exact ⟨resp, hmain, htype2, hmid⟩

/-- Claim C6: the 'website:tool-call' responder, given a request for tool
`name` with arguments `args`: when no tool of that name is registered it
returns (never throws) the structured failure with value
"Tool \"name\" not found"; when the schema rejects the arguments or the
execution throws or rejects, it returns the structured failure carrying
the stringified error; otherwise it returns ok with the execution
result. -/
theorem toolCall_responder_structured_results (tools : List (String × RegisteredTool))
    (name : String) (args : Val) :
    (mapGet tools name = none →
      toolCallHandler tools (Val.toolCall name args)
        = Except.ok (Val.okv false (Val.str ("Tool \"" ++ name ++ "\" not found"))))
    ∧ (∀ t, mapGet tools name = some t →
        (∀ err, t.parse args = Except.error err →
          toolCallHandler tools (Val.toolCall name args)
            = Except.ok (Val.okv false (Val.str err)))
        ∧ (∀ v err, t.parse args = Except.ok v → t.execute v = Except.error err →
          toolCallHandler tools (Val.toolCall name args)
            = Except.ok (Val.okv false (Val.str err)))
        ∧ (∀ v res, t.parse args = Except.ok v → t.execute v = Except.ok res →
          toolCallHandler tools (Val.toolCall name args)
            = Except.ok (Val.okv true res))) := by
  constructor
  · intro hnone
    simp [toolCallHandler, payloadToolName, payloadToolArgs, hnone]
  · intro t ht
    refine ⟨?_, ?_, ?_⟩
    · intro err herr
      simp [toolCallHandler, payloadToolName, payloadToolArgs, ht, herr]
    · intro v err hv herr
      simp [toolCallHandler, payloadToolName, payloadToolArgs, ht, hv, herr]
    · intro v res hv hres
      simp [toolCallHandler, payloadToolName, payloadToolArgs, ht, hv, hres]

/-- Witness for claim C6: an unknown tool name yields the structured
not-found failure; adderTool rejects a string argument with the
stringified schema error and maps 4 to ok 5. -/
theorem toolCall_responder_structured_results_witness :
    toolCallHandler [] (Val.toolCall "missing" Val.vunit)
      = Except.ok (Val.okv false (Val.str ("Tool \"" ++ "missing" ++ "\" not found")))
    ∧ toolCallHandler [("adder", adderTool)] (Val.toolCall "adder" (Val.str "x"))
      = Except.ok (Val.okv false (Val.str "ZodError: expected number"))
    ∧ toolCallHandler [("adder", adderTool)] (Val.toolCall "adder" (Val.num 4))
      = Except.ok (Val.okv true (Val.num 5)) := by
  refine ⟨?_, ?_, ?_⟩
  · exact (toolCall_responder_structured_results [] "missing" Val.vunit).1 rfl
  · exact ((toolCall_responder_structured_results [("adder", adderTool)] "adder"
      (Val.str "x")).2 adderTool rfl).1 "ZodError: expected number" rfl
  · exact (((toolCall_responder_structured_results [("adder", adderTool)] "adder"
      (Val.num 4)).2 adderTool rfl).2.2) (Val.num 4) (Val.num 5) rfl rfl

theorem sendMessage_fields (x : Adapter) (m : Envelope) :
    (sendMessage x m).tools = x.tools ∧ (sendMessage x m).pending = x.pending
    ∧ (sendMessage x m).settleLog = x.settleLog ∧ (sendMessage x m).counter = x.counter
    ∧ (sendMessage x m).listening = x.listening := by
  unfold sendMessage
  split <;> exact ⟨rfl, rfl, rfl, rfl, rfl⟩

/-- Claim C8: registerTool first enters the tool into the local registered
tool map (it is present when the remote ask is issued); when the remote
'chatbot:register-tool' response resolves with success false the local
entry is removed, and when it resolves with success true the local entry
is retained. -/
theorem registerTool_rolls_back_on_remote_failure (a : Adapter) (t : RegisteredTool) :
    mapGet (registerToolStart a t).1.tools t.name = some t
    ∧ (∀ v, valSuccessField v = false →
        mapGet (registerToolFinish (registerToolStart a t).1 t
          (Settlement.resolved v)).tools t.name = none)
    ∧ (∀ v, valSuccessField v = true →
        mapGet (registerToolFinish (registerToolStart a t).1 t
          (Settlement.resolved v)).tools t.name = some t) := by
  have hstart : (registerToolStart a t).1.tools = mapSet a.tools t.name t := by
    simp only [registerToolStart, askChatbot]
    rw [(sendMessage_fields _ _).1]
  refine ⟨?_, ?_, ?_⟩
  · rw [hstart]
    exact mapGet_mapSet_self a.tools t.name t
  · intro v hv
    simp [registerToolFinish, hv, hstart, mapGet_mapDelete_self]
  · intro v hv
    simp [registerToolFinish, hv, hstart, mapGet_mapSet_self]

/-- Witness for claim C8: registering adderTool enters it locally; a
success-false response removes it; a success-true response retains it. -/
theorem registerTool_rolls_back_on_remote_failure_witness :
    mapGet (registerToolStart sampleIdleAdapter adderTool).1.tools "adder" = some adderTool
    ∧ mapGet (registerToolFinish (registerToolStart sampleIdleAdapter adderTool).1 adderTool
        (Settlement.resolved (Val.succv false))).tools "adder" = none
    ∧ mapGet (registerToolFinish (registerToolStart sampleIdleAdapter adderTool).1 adderTool
        (Settlement.resolved (Val.succv true))).tools "adder" = some adderTool := by
  have h := registerTool_rolls_back_on_remote_failure sampleIdleAdapter adderTool
  exact ⟨h.1, h.2.1 (Val.succv false) rfl, h.2.2 (Val.succv true) rfl⟩

theorem applyEvent_quiescent (a : Adapter) (ev : AdapterEvent)
    (h1 : a.pending = []) (h2 : a.listening = false) :
    (applyEvent a ev).pending = [] ∧ (applyEvent a ev).listening = false
    ∧ (applyEvent a ev).settleLog = a.settleLog := by
  cases ev with
  | inbound r =>
    simp [applyEvent, deliverWindowMessage, h2, h1]
  | timerFire mid e =>
    simp [applyEvent, fireTimeout, h1, h2, hasKey]
  | disposeCall =>
    simp [applyEvent, dispose]

theorem runEvents_quiescent (evs : List AdapterEvent) (a : Adapter)
    (h1 : a.pending = []) (h2 : a.listening = false) :
    (runEvents a evs).settleLog = a.settleLog := by
  induction evs generalizing a with
  | nil => rfl
  | cons ev rest ih =>
    obtain ⟨g1, g2, g3⟩ := applyEvent_quiescent a ev h1 h2
    exact (ih (applyEvent a ev) g1 g2).trans g3

/-- Claim C10: dispose clears the pending-request map without settling the
stored callbacks (the settlement log is untouched); afterwards any timer
firing finds no entry and does nothing, any inbound message (in particular
a late response envelope) leaves the state unchanged, and under every
subsequent sequence of events the settlement log never grows — so a
pending ask's promise neither resolves nor rejects after dispose. -/
theorem dispose_orphans_pending_asks (a : Adapter) :
    (dispose a).pending = []
    ∧ (dispose a).settleLog = a.settleLog
    ∧ (∀ mid e, fireTimeout (dispose a) mid e = dispose a)
    ∧ (∀ r, deliverWindowMessage (dispose a) r = dispose a)
    ∧ (∀ evs, (runEvents (dispose a) evs).settleLog = a.settleLog) := by
  refine ⟨rfl, rfl, ?_, ?_, ?_⟩
  · intro mid e
    exact fireTimeout_neg (dispose a) mid e rfl
  · intro r
    simp [deliverWindowMessage, dispose]
  · intro evs
    exact runEvents_quiescent evs (dispose a) rfl rfl
